import Mathlib

/-!
Shallow embedding of the `guildsync` CLI's format-validation core
(`src/main.rs`).  JSON values are modelled after `serde_json::Value`:
numbers keep serde_json's three-way representation (a non-negative
integer stored in a `u64`, a negative integer, or a float), so that
`as_u64` behaves exactly as in serde_json.  The validator
`validate_format` is translated match-for-match from the Rust source;
the file-read and JSON-parse stages are abstracted as `Except`-valued
inputs (`validate_file`), matching the `?`-propagation in the source.
-/

/-- The two recognized format tags (`enum GuildFormat`). -/
inductive GuildFormat where
  | dump : GuildFormat
  | upload : GuildFormat
deriving DecidableEq

/-- `GuildFormat::as_str` — canonical lowercase token of a format tag. -/
def GuildFormat.as_str : GuildFormat → String
  | .dump => "dump"
  | .upload => "upload"

/-- A JSON number as stored by `serde_json::Number`: a non-negative
integer that fits `u64`, a negative integer (`i64`), or a float.  The
float payload is irrelevant to the program (only `as_u64` is called,
which never succeeds on a float), so it is left abstract. -/
inductive JsonNumber where
  | posInt : Nat → JsonNumber
  | negInt : Int → JsonNumber
  | float : JsonNumber
deriving DecidableEq

/-- A JSON document tree, after `serde_json::Value`.  Objects are
key-value lists (serde_json's map, with lookup by key). -/
inductive JsonValue where
  | null : JsonValue
  | bool : Bool → JsonValue
  | num : JsonNumber → JsonValue
  | str : String → JsonValue
  | arr : List JsonValue → JsonValue
  | obj : List (String × JsonValue) → JsonValue

/-- Map lookup (`serde_json::Map::get`): first binding for the key. -/
def jget (m : List (String × JsonValue)) (k : String) : Option JsonValue :=
  match m with
  | [] => none
  | (k', v) :: rest => if k' = k then some v else jget rest k

/-- `Value::as_object`. -/
def JsonValue.as_object : JsonValue → Option (List (String × JsonValue))
  | .obj m => some m
  | _ => none

/-- `Value::as_str`. -/
def JsonValue.as_str : JsonValue → Option String
  | .str s => some s
  | _ => none

/-- `Number::as_u64`: succeeds exactly on the non-negative-integer
representation.  The `n < 2 ^ 64` guard expresses that the Rust payload
is a `u64`; serde_json can never build `posInt` beyond that range. -/
def JsonNumber.as_u64 : JsonNumber → Option Nat
  | .posInt n => if n < 2 ^ 64 then some n else none
  | _ => none

/-- `Value::as_u64`. -/
def JsonValue.as_u64 : JsonValue → Option Nat
  | .num n => n.as_u64
  | _ => none

/-- The error enum `CliError` of `src/main.rs` (payloads kept where the
source keeps them; the wrapped io/json causes are strings). -/
inductive CliError where
  | notImplemented : CliError
  | ioErr : String → CliError
  | jsonErr : String → CliError
  | notObject : CliError
  | formatMismatch : String → String → CliError
  | unknownFormat : String → CliError
  | formatNotString : CliError
  | invalidVersionType : CliError
deriving DecidableEq

/-- The `Display` text of each `CliError` variant (the `#[error(...)]`
attributes in the source). -/
def CliError.message : CliError → String
  | .notImplemented => "scaffold only; not implemented"
  | .ioErr e => "failed to read input file: " ++ e
  | .jsonErr e => "failed to parse JSON: " ++ e
  | .notObject => "input must be a JSON object"
  | .formatMismatch expected found =>
      "format mismatch: expected " ++ expected ++ ", found " ++ found
  | .unknownFormat s => "unrecognized format value: " ++ s
  | .formatNotString => "format must be a string when provided"
  | .invalidVersionType => "version must be an unsigned integer when provided"

/-- `struct ValidationSummary`. -/
structure ValidationSummary where
  format : Option String
  version : Option Nat
  format_declared : Bool
deriving DecidableEq

/-- The `format`-field block of `validate_format` (source lines
271-282): absent key leaves `(none, false)`; a present non-string fails
with `FormatNotString`; a recognized string is kept; any other string
fails with `UnknownFormat`. -/
def checkFormat (object : List (String × JsonValue)) :
    Except CliError (Option String × Bool) :=
  match jget object "format" with
  | none => .ok (none, false)
  | some format_value =>
    match format_value.as_str with
    | none => .error .formatNotString
    | some format_str =>
      if format_str = "dump" ∨ format_str = "upload" then
        .ok (some format_str, true)
      else
        .error (.unknownFormat format_str)

/-- The expected-format comparison of `validate_format` (source lines
284-293): compared only when both `expected` and a recognized declared
format are present. -/
def checkExpected (expected : Option GuildFormat) (format : Option String) :
    Except CliError Unit :=
  match expected with
  | none => .ok ()
  | some expected_format =>
    match format with
    | none => .ok ()
    | some found =>
      if found ≠ expected_format.as_str then
        .error (.formatMismatch expected_format.as_str found)
      else
        .ok ()

/-- The `version`-field block of `validate_format` (source lines
295-299): absent key gives `none`; otherwise `as_u64` must succeed. -/
def checkVersion (object : List (String × JsonValue)) :
    Except CliError (Option Nat) :=
  match jget object "version" with
  | none => .ok none
  | some version_value =>
    match version_value.as_u64 with
    | none => .error .invalidVersionType
    | some n => .ok (some n)

/-- `validate_format` from the top-level-object check onward (source
lines 269-306); the stages run in source order and the first failing
stage's error propagates. -/
def validate_format (value : JsonValue) (expected : Option GuildFormat) :
    Except CliError ValidationSummary :=
  match value.as_object with
  | none => .error .notObject
  | some object =>
    match checkFormat object with
    | .error e => .error e
    | .ok (format, format_declared) =>
      match checkExpected expected format with
      | .error e => .error e
      | .ok _ =>
        match checkVersion object with
        | .error e => .error e
        | .ok version => .ok ⟨format, version, format_declared⟩

/-- The full `validate_format` pipeline (source lines 266-306): the
file read and the JSON parse happen first, in that order, each
short-circuiting with its wrapped error (`?` on lines 267-268). -/
def validate_file (readResult : Except String String)
    (parse : String → Except String JsonValue)
    (expected : Option GuildFormat) : Except CliError ValidationSummary :=
  match readResult with
  | .error e => .error (.ioErr e)
  | .ok contents =>
    match parse contents with
    | .error e => .error (.jsonErr e)
    | .ok value => validate_format value expected

/-- `enum DiscordCommand`. -/
inductive DiscordCommand where
  | exportCmd : Nat → String → DiscordCommand
  | importCmd : String → Nat → Bool → DiscordCommand

/-- `enum FormatCommand`: input path and optional expected format. -/
inductive FormatCommand where
  | validate : String → Option GuildFormat → FormatCommand

/-- `enum TerminalOpenCodeCommand`. -/
inductive TerminalOpenCodeCommand where
  | attach : Option String → TerminalOpenCodeCommand

/-- `enum TerminalCommand`. -/
inductive TerminalCommand where
  | opencode : TerminalOpenCodeCommand → TerminalCommand

/-- `enum KubeLocalCommand`. -/
inductive KubeLocalCommand where
  | up : KubeLocalCommand
  | down : KubeLocalCommand
  | status : KubeLocalCommand

/-- `enum KubeRemoteCommand`. -/
inductive KubeRemoteCommand where
  | test : String → KubeRemoteCommand
  | deploy : String → KubeRemoteCommand

/-- `enum KubeCommand`. -/
inductive KubeCommand where
  | localCmd : KubeLocalCommand → KubeCommand
  | remoteCmd : KubeRemoteCommand → KubeCommand

/-- `enum SshCommand`. -/
inductive SshCommand where
  | exec : String → List String → SshCommand

/-- `enum Command`: the five subcommand groups. -/
inductive Command where
  | discord : DiscordCommand → Command
  | format : FormatCommand → Command
  | terminal : TerminalCommand → Command
  | kube : KubeCommand → Command
  | ssh : SshCommand → Command

/-- The success-message builder in `main` (source lines 315-334):
detail fragments are pushed in source order and joined. -/
def render_summary (format : Option GuildFormat) (summary : ValidationSummary) :
    String :=
  let details : List String :=
    (match format with
     | some expected =>
       ["expected=" ++ expected.as_str] ++
         (if summary.format_declared then [] else ["format=missing"])
     | none => []) ++
    (match summary.format with
     | some found => ["format=" ++ found]
     | none => []) ++
    (match summary.version with
     | some version => ["version=" ++ toString version]
     | none => [])
  if details = [] then "valid JSON input"
  else "valid JSON input (" ++ String.intercalate ", " details ++ ")"

/-- The command dispatch in `main` (source lines 312-338): only
`format validate` runs the validator; every other subcommand yields
`NotImplemented`.  File reading and JSON parsing are passed in as the
external collaborators they are in the source. -/
def run_command (cmd : Command) (readFile : String → Except String String)
    (parse : String → Except String JsonValue) : Except CliError String :=
  match cmd with
  | .format (.validate inPath format) =>
      (validate_file (readFile inPath) parse format).map (render_summary format)
  | _ => .error .notImplemented

/-- The exit-code selection in `main` (source lines 358-361):
`NotImplemented` exits with 2, every other error with 1. -/
def exit_code_for : CliError → Nat
  | .notImplemented => 2
  | _ => 1

/-! ## Helper lemmas -/

theorem validate_format_obj (object : List (String × JsonValue))
    (expected : Option GuildFormat) :
    validate_format (.obj object) expected =
      match checkFormat object with
      | .error e => .error e
      | .ok (format, format_declared) =>
        match checkExpected expected format with
        | .error e => .error e
        | .ok _ =>
          match checkVersion object with
          | .error e => .error e
          | .ok version => .ok ⟨format, version, format_declared⟩ := rfl

theorem checkFormat_of_absent (object : List (String × JsonValue))
    (h : jget object "format" = none) : checkFormat object = .ok (none, false) := by
  unfold checkFormat
  rw [h]

/-- Everything `checkFormat` can say on success. -/
theorem checkFormat_ok_cases (object : List (String × JsonValue))
    (f : Option String) (d : Bool) (h : checkFormat object = .ok (f, d)) :
    (f = none ∧ d = false ∧ jget object "format" = none) ∨
      (∃ s, f = some s ∧ d = true ∧ (s = "dump" ∨ s = "upload") ∧
        jget object "format" = some (.str s)) := by
  unfold checkFormat at h
  split at h
  · left
    cases h
    exact ⟨rfl, rfl, by assumption⟩
  · rename_i fv hfv
    cases hstr : fv.as_str with
    | none => rw [hstr] at h; cases h
    | some s =>
      rw [hstr] at h
      simp only at h
      split at h
      · right
        cases h
        refine ⟨s, rfl, rfl, by assumption, ?_⟩
        cases fv with
        | str t => cases hstr; exact hfv
        | null => simp [JsonValue.as_str] at hstr
        | bool b => simp [JsonValue.as_str] at hstr
        | num n => simp [JsonValue.as_str] at hstr
        | arr a => simp [JsonValue.as_str] at hstr
        | obj o => simp [JsonValue.as_str] at hstr
      · cases h

theorem checkFormat_error_cases (object : List (String × JsonValue))
    (e : CliError) (h : checkFormat object = .error e) :
    e = .formatNotString ∨ ∃ s, e = .unknownFormat s := by
  unfold checkFormat at h
  split at h
  · cases h
  · rename_i fv hfv
    cases hstr : fv.as_str with
    | none => rw [hstr] at h; cases h; exact Or.inl rfl
    | some s =>
      rw [hstr] at h
      simp only at h
      split at h
      · cases h
      · cases h; exact Or.inr ⟨s, rfl⟩

theorem checkExpected_none_format (expected : Option GuildFormat) :
    checkExpected expected none = .ok () := by
  cases expected <;> rfl

theorem checkExpected_ok_cases (expected : GuildFormat) (f : Option String)
    (h : checkExpected (some expected) f = .ok ()) :
    f = none ∨ f = some expected.as_str := by
  cases f with
  | none => exact Or.inl rfl
  | some s =>
    right
    unfold checkExpected at h
    simp only at h
    split at h
    · cases h
    · rename_i hne
      rw [of_not_not hne]

theorem checkVersion_error_eq (object : List (String × JsonValue))
    (e : CliError) (h : checkVersion object = .error e) :
    e = .invalidVersionType := by
  unfold checkVersion at h
  split at h
  · cases h
  · split at h
    · cases h; rfl
    · cases h

theorem jget_append_notin (m : List (String × JsonValue)) (k key : String)
    (v : JsonValue) (hk : k ≠ key) :
    jget (m ++ [(k, v)]) key = jget m key := by
  induction m with
  | nil => simp [jget, hk]
  | cons hd tl ih =>
    obtain ⟨k', v'⟩ := hd
    by_cases hkey : k' = key
    · simp [jget, hkey]
    · simp [jget, hkey, ih]

theorem checkExpected_error_cases (expected : Option GuildFormat)
    (f : Option String) (e : CliError)
    (h : checkExpected expected f = .error e) :
    ∃ a b, e = .formatMismatch a b := by
  cases expected with
  | none => cases h
  | some ef =>
    cases f with
    | none => cases h
    | some s =>
      unfold checkExpected at h
      simp only at h
      split at h
      · cases h; exact ⟨ef.as_str, s, rfl⟩
      · cases h

/-- Inversion on a successful validation. -/
theorem validate_format_ok_inv (value : JsonValue)
    (expected : Option GuildFormat) (summary : ValidationSummary)
    (h : validate_format value expected = .ok summary) :
    ∃ object, value.as_object = some object ∧
      checkFormat object = .ok (summary.format, summary.format_declared) ∧
      checkExpected expected summary.format = .ok () ∧
      checkVersion object = .ok summary.version := by
  unfold validate_format at h
  split at h
  · cases h
  · rename_i object hobj
    refine ⟨object, hobj, ?_⟩
    split at h
    · cases h
    · rename_i f d hcf
      split at h
      · cases h
      · rename_i u hce
        split at h
        · cases h
        · rename_i v hcv
          cases h
          exact ⟨hcf, by cases u; exact hce, hcv⟩

/-! ## Claims -/

/-- C1: a top-level object without a "format" key passes the format
checks with `format_declared = false` and `format = none`, never raises
a `FormatMismatch` even with an `expected` argument, and succeeds when
the version rule passes; in particular the object with only
`"other": true` against expected `Upload` yields the summary
`⟨none, none, false⟩`. -/
theorem claim_C1 (object : List (String × JsonValue))
    (expected : Option GuildFormat) (h : jget object "format" = none) :
    (∀ v, checkVersion object = .ok v →
      validate_format (.obj object) expected = .ok ⟨none, v, false⟩) ∧
    (∀ e f, validate_format (.obj object) expected ≠
      .error (.formatMismatch e f)) ∧
    validate_format (.obj [("other", .bool true)]) (some .upload) =
      .ok ⟨none, none, false⟩ := by
  have hf := checkFormat_of_absent object h
  have he := checkExpected_none_format expected
  refine ⟨?_, ?_, rfl⟩
  · intro v hv
    rw [validate_format_obj, hf]
    simp only [he, hv]
  · intro e f hcontra
    rw [validate_format_obj, hf] at hcontra
    simp only [he] at hcontra
    cases hcv : checkVersion object with
    | error e' =>
      rw [hcv] at hcontra
      simp only [Except.error.injEq] at hcontra
      rw [checkVersion_error_eq object e' hcv] at hcontra
      cases hcontra
    | ok v =>
      rw [hcv] at hcontra
      cases hcontra

/-- C1 witness at the concrete object with a single "other" key. -/
theorem claim_C1_witness :
    validate_format (.obj [("other", .bool true)]) (some .upload) =
      .ok ⟨none, none, false⟩ :=
  (claim_C1 [("other", JsonValue.bool true)] (some .upload) rfl).2.2

/-- C7: the concrete input with `"format": "dump"` and `"version": 3`
and no expected argument succeeds with exactly the summary
`⟨some "dump", some 3, true⟩`; and appending any top-level field whose
key is neither "format" nor "version" never changes the result of
validation. -/
theorem claim_C7 :
    validate_format
        (.obj [("format", .str "dump"), ("version", .num (.posInt 3))]) none =
      .ok ⟨some "dump", some 3, true⟩ ∧
    ∀ (object : List (String × JsonValue)) (expected : Option GuildFormat)
      (k : String) (v : JsonValue), k ≠ "format" → k ≠ "version" →
      validate_format (.obj (object ++ [(k, v)])) expected =
        validate_format (.obj object) expected := by
  constructor
  · rfl
  · intro object expected k v hkf hkv
    rw [validate_format_obj, validate_format_obj]
    have h1 : checkFormat (object ++ [(k, v)]) = checkFormat object := by
      unfold checkFormat
      rw [jget_append_notin object k "format" v hkf]
    have h2 : checkVersion (object ++ [(k, v)]) = checkVersion object := by
      unfold checkVersion
      rw [jget_append_notin object k "version" v hkv]
    rw [h1, h2]

/-- C2: the validation pipeline applies its checks in the fixed source
order — read, parse, top-level-object check, format-field check,
expected-format comparison, version-field check — and the first
violated rule determines the error: a failed read gives `IoError`
before parsing, a parse failure gives `ParseError`, a non-object top
level gives `NotAnObjectError` without examining format or version, a
format-field failure propagates regardless of the version field, an
expected-format mismatch propagates regardless of the version field,
and `InvalidVersionTypeError` arises only when the object check, the
format-field check and the expected comparison all passed. -/
theorem claim_C2 :
    (∀ (e : String) (parse : String → Except String JsonValue)
      (expected : Option GuildFormat),
      validate_file (.error e) parse expected = .error (.ioErr e)) ∧
    (∀ (contents : String) (parse : String → Except String JsonValue)
      (expected : Option GuildFormat) (e : String),
      parse contents = .error e →
      validate_file (.ok contents) parse expected = .error (.jsonErr e)) ∧
    (∀ (value : JsonValue) (expected : Option GuildFormat),
      value.as_object = none →
      validate_format value expected = .error .notObject) ∧
    (∀ (object : List (String × JsonValue)) (expected : Option GuildFormat)
      (e : CliError), checkFormat object = .error e →
      validate_format (.obj object) expected = .error e) ∧
    (∀ (object : List (String × JsonValue)) (expected : Option GuildFormat)
      (f : Option String) (d : Bool) (e : CliError),
      checkFormat object = .ok (f, d) → checkExpected expected f = .error e →
      validate_format (.obj object) expected = .error e) ∧
    (∀ (value : JsonValue) (expected : Option GuildFormat),
      validate_format value expected = .error .invalidVersionType →
      ∃ object f d, value.as_object = some object ∧
        checkFormat object = .ok (f, d) ∧ checkExpected expected f = .ok ()) := by
  refine ⟨?_, ?_, ?_, ?_, ?_, ?_⟩
  · intro e parse expected
    rfl
  · intro contents parse expected e he
    have hstep : validate_file (.ok contents) parse expected =
        match parse contents with
        | .error e => .error (.jsonErr e)
        | .ok value => validate_format value expected := rfl
    rw [hstep, he]
  · intro value expected h
    unfold validate_format
    rw [h]
  · intro object expected e hcf
    rw [validate_format_obj, hcf]
  · intro object expected f d e hcf hce
    rw [validate_format_obj, hcf]
    simp only [hce]
  · intro value expected h
    unfold validate_format at h
    split at h
    · cases h
    · rename_i object hobj
      cases hcf : checkFormat object with
      | error e =>
        rw [hcf] at h
        simp only [Except.error.injEq] at h
        rcases checkFormat_error_cases object e hcf with he | ⟨s, he⟩ <;>
          rw [he] at h <;> cases h
      | ok p =>
        obtain ⟨f, d⟩ := p
        rw [hcf] at h
        simp only at h
        cases hce : checkExpected expected f with
        | error e =>
          rw [hce] at h
          simp only [Except.error.injEq] at h
          obtain ⟨a, b, he⟩ := checkExpected_error_cases expected f e hce
          rw [he] at h
          cases h
        | ok u =>
          cases u
          exact ⟨object, f, d, hobj, hcf, hce⟩

/-- C2 witness: a failed read is reported as `IoError` before parsing,
and a string top level is reported as `NotAnObjectError`. -/
theorem claim_C2_witness :
    validate_file (.error "boom") (fun _ => .error "x") none =
      .error (.ioErr "boom") ∧
    validate_format (.str "hello") none = .error .notObject :=
  ⟨claim_C2.1 "boom" (fun _ => .error "x") none,
   claim_C2.2.2.1 (.str "hello") none rfl⟩

/-- C3: with the object, format and expected checks passed, a present
"version" value convertible by `as_u64` (a non-negative integer within
the 64-bit unsigned range) yields `version = some n`, and any other
value fails with `InvalidVersionTypeError`; negative integers never
convert; concretely `-1`, `"1"` and a float (such as 1.5) fail while
`7` succeeds with `some 7`. -/
theorem claim_C3 (object : List (String × JsonValue))
    (expected : Option GuildFormat) (f : Option String) (d : Bool)
    (vv : JsonValue) (hcf : checkFormat object = .ok (f, d))
    (hce : checkExpected expected f = .ok ())
    (hv : jget object "version" = some vv) :
    (∀ n, vv.as_u64 = some n →
      validate_format (.obj object) expected = .ok ⟨f, some n, d⟩) ∧
    (vv.as_u64 = none →
      validate_format (.obj object) expected = .error .invalidVersionType) ∧
    (∀ i : Int, (JsonValue.num (.negInt i)).as_u64 = none) ∧
    validate_format (.obj [("version", .num (.negInt (-1)))]) none =
      .error .invalidVersionType ∧
    validate_format (.obj [("version", .str "1")]) none =
      .error .invalidVersionType ∧
    validate_format (.obj [("version", .num .float)]) none =
      .error .invalidVersionType ∧
    validate_format (.obj [("version", .num (.posInt 7))]) none =
      .ok ⟨none, some 7, false⟩ := by
  refine ⟨?_, ?_, fun i => rfl, rfl, rfl, rfl, rfl⟩
  · intro n hn
    have hcv : checkVersion object = .ok (some n) := by
      unfold checkVersion
      rw [hv]
      simp only [hn]
    rw [validate_format_obj, hcf]
    simp only [hce, hcv]
  · intro hn
    have hcv : checkVersion object = .error .invalidVersionType := by
      unfold checkVersion
      rw [hv]
      simp only [hn]
    rw [validate_format_obj, hcf]
    simp only [hce, hcv]

/-- C3 witness: the single-field object with `"version": 7` succeeds
with `version = some 7`. -/
theorem claim_C3_witness :
    validate_format (.obj [("version", .num (.posInt 7))]) none =
      .ok ⟨none, some 7, false⟩ :=
  (claim_C3 [("version", JsonValue.num (.posInt 7))] none none false
    (.num (.posInt 7)) rfl rfl rfl).1 7 rfl

/-- C4: a recognized declared format that differs from a supplied
expected format fails with `FormatMismatchError` carrying both
canonical tokens; concretely `"upload"` against expected `Dump` fails
with expected "dump" / found "upload", while `"dump"` against expected
`Dump` succeeds with `format = some "dump"`. -/
theorem claim_C4 (object : List (String × JsonValue)) (expected : GuildFormat)
    (s : String) (hfmt : jget object "format" = some (.str s))
    (hrec : s = "dump" ∨ s = "upload") (hne : s ≠ expected.as_str) :
    validate_format (.obj object) (some expected) =
      .error (.formatMismatch expected.as_str s) ∧
    validate_format (.obj [("format", .str "upload")]) (some .dump) =
      .error (.formatMismatch "dump" "upload") ∧
    validate_format (.obj [("format", .str "dump")]) (some .dump) =
      .ok ⟨some "dump", none, true⟩ := by
  refine ⟨?_, rfl, rfl⟩
  have hcf : checkFormat object = .ok (some s, true) := by
    unfold checkFormat
    rw [hfmt]
    simp only [JsonValue.as_str]
    rw [if_pos hrec]
  have hce : checkExpected (some expected) (some s) =
      .error (.formatMismatch expected.as_str s) := by
    unfold checkExpected
    simp only
    rw [if_pos hne]
  rw [validate_format_obj, hcf]
  simp only [hce]

/-- C4 witness at `"format": "upload"` against expected `Dump`. -/
theorem claim_C4_witness :
    validate_format (.obj [("format", .str "upload")]) (some .dump) =
      .error (.formatMismatch "dump" "upload") :=
  (claim_C4 [("format", JsonValue.str "upload")] .dump "upload" rfl
    (Or.inr rfl) (by decide)).1

/-- C5: a present "format" value that is not a JSON string fails with
`FormatNotStringError` regardless of the version field's validity, and
a present string outside {"dump", "upload"} fails with
`UnknownFormatError` carrying that string; concretely `"format": 42`
fails with the not-a-string error whether the version field is a valid
`1` or an invalid string. -/
theorem claim_C5 (object : List (String × JsonValue))
    (expected : Option GuildFormat) :
    (∀ fv, jget object "format" = some fv → fv.as_str = none →
      validate_format (.obj object) expected = .error .formatNotString) ∧
    (∀ s, jget object "format" = some (.str s) → ¬(s = "dump" ∨ s = "upload") →
      validate_format (.obj object) expected = .error (.unknownFormat s)) ∧
    validate_format
        (.obj [("format", .num (.posInt 42)), ("version", .num (.posInt 1))])
        none = .error .formatNotString ∧
    validate_format
        (.obj [("format", .num (.posInt 42)), ("version", .str "bad")])
        none = .error .formatNotString := by
  refine ⟨?_, ?_, rfl, rfl⟩
  · intro fv h1 h2
    have hcf : checkFormat object = .error .formatNotString := by
      unfold checkFormat
      rw [h1]
      simp only [h2]
    rw [validate_format_obj, hcf]
  · intro s h1 h2
    have hcf : checkFormat object = .error (.unknownFormat s) := by
      unfold checkFormat
      rw [h1]
      simp only [JsonValue.as_str]
      rw [if_neg h2]
    rw [validate_format_obj, hcf]

/-- C5 witness: `"format": 42` fails with `FormatNotStringError`, and
`"format": "tape"` fails with `UnknownFormatError "tape"`. -/
theorem claim_C5_witness :
    validate_format
        (.obj [("format", .num (.posInt 42)), ("version", .num (.posInt 1))])
        none = .error .formatNotString ∧
    validate_format (.obj [("format", .str "tape")]) none =
      .error (.unknownFormat "tape") :=
  ⟨(claim_C5 [("format", JsonValue.num (.posInt 42)),
      ("version", JsonValue.num (.posInt 1))] none).2.2.1,
   (claim_C5 [("format", JsonValue.str "tape")] none).2.1 "tape" rfl
    (by decide)⟩

/-- C6: in every summary returned by a successful validation, `format`
is `some s` only if `format_declared` is true and `s` is one of the
recognized canonical tokens "dump" or "upload". -/
theorem claim_C6 (value : JsonValue) (expected : Option GuildFormat)
    (summary : ValidationSummary) (s : String)
    (hok : validate_format value expected = .ok summary)
    (hs : summary.format = some s) :
    summary.format_declared = true ∧ (s = "dump" ∨ s = "upload") := by
  obtain ⟨object, hobj, hcf, hce, hcv⟩ :=
    validate_format_ok_inv value expected summary hok
  rcases checkFormat_ok_cases object _ _ hcf with ⟨hf, hd, _⟩ |
    ⟨t, hf, hd, hrec, _⟩
  · rw [hs] at hf
    cases hf
  · rw [hs] at hf
    cases hf
    exact ⟨hd, hrec⟩

/-- C6 witness at a successful validation of `{"format":"dump"}`. -/
theorem claim_C6_witness :
    (ValidationSummary.mk (some "dump") none true).format_declared = true ∧
      ("dump" = "dump" ∨ "dump" = "upload") :=
  claim_C6 (.obj [("format", .str "dump")]) none ⟨some "dump", none, true⟩
    "dump" rfl rfl

/-- C8: validation is deterministic — two runs of the pipeline with
equal file-read results, equal parsers and equal expected arguments
return identical results; the validator is a pure function with no
hidden state between calls. -/
theorem claim_C8 (r₁ r₂ : Except String String)
    (p₁ p₂ : String → Except String JsonValue)
    (e₁ e₂ : Option GuildFormat) (hr : r₁ = r₂) (hp : p₁ = p₂)
    (he : e₁ = e₂) : validate_file r₁ p₁ e₁ = validate_file r₂ p₂ e₂ := by
  rw [hr, hp, he]

/-- C8 witness at a concrete read result and parser. -/
theorem claim_C8_witness :
    validate_file (.error "boom") (fun _ => .error "x") none =
      validate_file (.error "boom") (fun _ => .error "x") none :=
  claim_C8 (.error "boom") (.error "boom") (fun _ => .error "x")
    (fun _ => .error "x") none none rfl rfl rfl

/-- C9: every subcommand other than format validation dispatches to the
`NotImplemented` error, whose display text ends in "not implemented";
`NotImplemented` exits with the fixed code 2, while every other error
(the validation failures) exits with code 1, a different code. -/
theorem claim_C9 :
    (∀ (cmd : Command) (readFile : String → Except String String)
      (parse : String → Except String JsonValue),
      (∀ p f, cmd ≠ .format (.validate p f)) →
      run_command cmd readFile parse = .error .notImplemented) ∧
    CliError.message .notImplemented = "scaffold only; " ++ "not implemented" ∧
    exit_code_for .notImplemented = 2 ∧
    (∀ e, e ≠ .notImplemented →
      exit_code_for e = 1 ∧ exit_code_for e ≠ exit_code_for .notImplemented) := by
  refine ⟨?_, by decide, rfl, ?_⟩
  · intro cmd readFile parse hne
    cases cmd with
    | format fc =>
      cases fc with
      | validate p f => exact absurd rfl (hne p f)
    | discord c => rfl
    | terminal c => rfl
    | kube c => rfl
    | ssh c => rfl
  · intro e he
    cases e with
    | notImplemented => exact absurd rfl he
    | ioErr a => exact ⟨rfl, by simp [exit_code_for]⟩
    | jsonErr a => exact ⟨rfl, by simp [exit_code_for]⟩
    | notObject => exact ⟨rfl, by decide⟩
    | formatMismatch a b => exact ⟨rfl, by simp [exit_code_for]⟩
    | unknownFormat a => exact ⟨rfl, by simp [exit_code_for]⟩
    | formatNotString => exact ⟨rfl, by decide⟩
    | invalidVersionType => exact ⟨rfl, by decide⟩

/-- C9 witness: the `kube local up` stub yields `NotImplemented`, and a
validation failure's exit code differs from the stub's. -/
theorem claim_C9_witness :
    run_command (.kube (.localCmd .up)) (fun _ => .error "no file")
      (fun _ => .error "no parse") = .error .notImplemented ∧
    exit_code_for .notObject = 1 := by
  constructor
  · exact claim_C9.1 (.kube (.localCmd .up)) (fun _ => .error "no file")
      (fun _ => .error "no parse") (fun p f h => nomatch h)
  · exact (claim_C9.2.2.2 .notObject (by decide)).1

/-- C10: every successful validation with a supplied expected format
and a declared format field returns `format = some` of the expected
format's canonical token — the mismatch check leaves only the equal
case alive. -/
theorem claim_C10 (object : List (String × JsonValue))
    (expected : GuildFormat) (summary : ValidationSummary)
    (hok : validate_format (.obj object) (some expected) = .ok summary)
    (hd : summary.format_declared = true) :
    summary.format = some expected.as_str := by
  obtain ⟨object', hobj, hcf, hce, hcv⟩ :=
    validate_format_ok_inv _ _ _ hok
  rcases checkExpected_ok_cases expected summary.format hce with hnone | heq
  · rcases checkFormat_ok_cases object' _ _ hcf with ⟨hf, hdd, _⟩ |
      ⟨s, hf, hdd, hrec, _⟩
    · rw [hd] at hdd
      cases hdd
    · rw [hnone] at hf
      cases hf
  · exact heq

/-- C10 witness: success with expected `Dump` and a declared format
carries `format = some "dump"`. -/
theorem claim_C10_witness :
    (ValidationSummary.mk (some "dump") none true).format =
      some GuildFormat.dump.as_str :=
  claim_C10 [("format", JsonValue.str "dump")] .dump
    ⟨some "dump", none, true⟩ rfl rfl

/-- C7 witness: appending an unrecognized field "extra" to the example
object leaves the validation result unchanged. -/
theorem claim_C7_witness :
    validate_format
        (.obj ([("format", .str "dump"), ("version", .num (.posInt 3))] ++
          [("extra", .null)])) none =
      validate_format
        (.obj [("format", .str "dump"), ("version", .num (.posInt 3))]) none :=
  claim_C7.2 [("format", JsonValue.str "dump"),
    ("version", JsonValue.num (.posInt 3))] none "extra" .null
    (by decide) (by decide)
